import Mathlib

/-
  Verification of the briefing aggregation and dispatch pipeline
  (notifier, risk scorer, report route, cron scheduler).

  JavaScript numbers are modelled as exact rationals, nullable values as
  Option, and every network interaction as an explicit outcome parameter,
  so that each operation becomes a pure, executable Lean function.
-/

namespace WV

/-! ## Notifier (lib/server/notifier.ts) -/

inductive NotifyChannel
  | slack
  | email
  deriving DecidableEq, Repr

structure NotifyResult where
  channel : NotifyChannel
  ok : Bool
  error : Option String
  deriving DecidableEq, Repr

/-- Process-wide configuration (the environment variables the notifier and
route read). `none` models an unset variable. -/
structure Env where
  slackWebhookUrl : Option String
  reportRecipients : Option String
  resendApiKey : Option String
  reportSender : Option String
  deriving Repr

/-- JavaScript falsiness test for an optional string: `undefined`, `null`
and the empty string are falsy. -/
def isFalsyStr (o : Option String) : Bool :=
  match o with
  | none => true
  | some s => s == ""

/-- Outcome of one `fetch` call: an HTTP response with a status code, or a
thrown transport exception carrying an optional message. -/
inductive FetchOutcome
  | success (status : Nat)
  | throwErr (msg : Option String)
  deriving DecidableEq, Repr

structure SlackOptions where
  message : String
  webhookUrl : Option String

structure EmailOptions where
  subject : String
  text : String
  toAddrs : Option (List String)
  fromAddr : Option String
  apiKey : Option String

/-- Leading- and trailing-whitespace removal, as `String.prototype.trim`
does; written over the character list so that it evaluates by kernel
reduction. -/
def jsTrim (s : String) : String :=
  String.mk (((s.data.dropWhile Char.isWhitespace).reverse.dropWhile Char.isWhitespace).reverse)

def splitCommaAux : List Char → List Char → List String
  | [], acc => [String.mk acc.reverse]
  | c :: rest, acc =>
      if c = ',' then String.mk acc.reverse :: splitCommaAux rest []
      else splitCommaAux rest (c :: acc)

/-- `String.prototype.split(",")`: every comma separates, empty pieces are
kept. -/
def jsSplitComma (s : String) : List String :=
  splitCommaAux s.data []

/-- Argument shape accepted by `normaliseRecipients`: absent
(undefined/null), a comma-separated string, or an array of strings. -/
inductive RecipientsArg
  | absent
  | str (s : String)
  | list (l : List String)

def normaliseRecipients : RecipientsArg → List String
  | .absent => []
  | .str "" => []
  | .str s => ((jsSplitComma s).map jsTrim).filter (fun entry => decide (entry.length > 0))
  | .list l => (l.map jsTrim).filter (fun entry => decide (entry.length > 0))

/-- `options.webhookUrl ?? process.env.SLACK_WEBHOOK_URL`. -/
def resolveWebhook (options : SlackOptions) (env : Env) : Option String :=
  options.webhookUrl.orElse (fun _ => env.slackWebhookUrl)

/-- `sendSlack`: returns the NotifyResult together with the number of
network calls performed (0 or 1). -/
def sendSlack (options : SlackOptions) (env : Env) (outcome : FetchOutcome) :
    NotifyResult × Nat :=
  let webhook := resolveWebhook options env
  if isFalsyStr webhook then
    (⟨.slack, false, some "Missing Slack webhook URL"⟩, 0)
  else
    match outcome with
    | .success status =>
        if 200 ≤ status ∧ status ≤ 299 then
          (⟨.slack, true, none⟩, 1)
        else
          (⟨.slack, false, some ("Slack webhook responded " ++ toString status)⟩, 1)
    | .throwErr msg =>
        (⟨.slack, false, some (msg.getD "Slack webhook error")⟩, 1)

/-- `options.to ?? process.env.REPORT_RECIPIENTS?.split(",")`. -/
def resolveRecipientsArg (options : EmailOptions) (env : Env) : RecipientsArg :=
  match options.toAddrs with
  | some l => .list l
  | none =>
      match env.reportRecipients with
      | some s => .list (jsSplitComma s)
      | none => .absent

/-- `sendEmail`: recipients resolve from the explicit argument, else the
configured comma-separated string split on commas; then the three
validation checks run in source order before the single POST. -/
def sendEmail (options : EmailOptions) (env : Env) (outcome : FetchOutcome) :
    NotifyResult × Nat :=
  let recipients := normaliseRecipients (resolveRecipientsArg options env)
  if recipients.length = 0 then
    (⟨.email, false, some "Missing email recipients"⟩, 0)
  else
    let apiKey := options.apiKey.orElse (fun _ => env.resendApiKey)
    if isFalsyStr apiKey then
      (⟨.email, false, some "Missing Resend API key"⟩, 0)
    else
      let sender := options.fromAddr.orElse (fun _ => env.reportSender)
      if isFalsyStr sender then
        (⟨.email, false, some "Missing report sender address"⟩, 0)
      else
        match outcome with
        | .success status =>
            if 200 ≤ status ∧ status ≤ 299 then
              (⟨.email, true, none⟩, 1)
            else
              (⟨.email, false, some ("Resend responded " ++ toString status)⟩, 1)
        | .throwErr msg =>
            (⟨.email, false, some (msg.getD "Resend request failed")⟩, 1)

/-! ## Risk scorer (lib/server/ioi.ts) -/

structure MarineSnapshot where
  hs : Option ℚ
  windKt : Option ℚ
  swellPeriod : Option ℚ
  ioi : Option ℚ

def HS_CAUTION : ℚ := 1.5
def HS_NOGO : ℚ := 2.5
def WIND_CAUTION : ℚ := 18
def WIND_NOGO : ℚ := 28
def SWELL_MIN : ℚ := 6
def SWELL_MAX : ℚ := 12

def hsSubScore (hs : Option ℚ) : ℚ :=
  match hs with
  | none => 0.5
  | some h =>
      if h ≤ HS_CAUTION then 1
      else if HS_NOGO ≤ h then 0
      else 1 - (h - HS_CAUTION) / (HS_NOGO - HS_CAUTION)

def windSubScore (wind : Option ℚ) : ℚ :=
  match wind with
  | none => 0.5
  | some w =>
      if w ≤ WIND_CAUTION then 1
      else if WIND_NOGO ≤ w then 0
      else 1 - (w - WIND_CAUTION) / (WIND_NOGO - WIND_CAUTION)

def swellSubScore (period : Option ℚ) : ℚ :=
  let boundedPeriod := min SWELL_MAX (max SWELL_MIN (period.getD 8))
  (boundedPeriod - SWELL_MIN) / (SWELL_MAX - SWELL_MIN)

/-- `Math.round` rounds half toward positive infinity, exactly as
Mathlib `round` does on `ℚ`; `Math.max`/`Math.min` clamp the result. -/
def computeIoiFromMarine (snapshot : MarineSnapshot) : Option ℤ :=
  let combined := 0.5 * hsSubScore snapshot.hs + 0.35 * windSubScore snapshot.windKt
      + 0.15 * swellSubScore snapshot.swellPeriod
  let ioi := round (combined * 100)
  some (max 0 (min 100 ioi))

structure VoyageRecord where
  id : String
  cargo : String
  etd : String
  eta : String
  status : String
  origin : String
  destination : String
  swellFt : ℚ
  windKt : ℚ

def deriveVoyageIoi (voyage : VoyageRecord) : ℤ :=
  let hs := voyage.swellFt / 3.28084
  (computeIoiFromMarine ⟨some hs, some voyage.windKt, some 8, none⟩).getD 50

/-! ## Report route (app/api/report/route.ts) -/

inductive Slot
  | am
  | pm
  deriving DecidableEq, Repr

/-- `toFixed(2)` on an exact rational value. -/
def formatFixed2 (value : ℚ) : String :=
  let sign := if value < 0 then "-" else ""
  let scaled : ℤ := round (|value| * 100)
  let intPart := scaled / 100
  let frac := scaled % 100
  let fracStr := if frac < 10 then "0" ++ toString frac else toString frac
  sign ++ toString intPart ++ "." ++ fracStr

/-- `toFixed(0)` on an exact rational value. -/
def formatFixed0 (value : ℚ) : String :=
  let sign := if value < 0 then "-" else ""
  sign ++ toString (round |value|)

def formatMetric (value : Option ℚ) (unit : String) : String :=
  match value with
  | some v => formatFixed2 v ++ " " ++ unit
  | none => "n/a " ++ unit

/-- The marine snapshot JSON the route receives from `/api/marine`. -/
structure MarineJson where
  port : Option String
  hs : Option ℚ
  windKt : Option ℚ
  swellPeriod : Option ℚ
  ioi : Option ℚ

def buildMarineLine (snapshot : Option MarineJson) : String :=
  match snapshot with
  | none => "[Marine Snapshot] 데이터 없음"
  | some s =>
      let hs := formatMetric s.hs "m"
      let wind := formatMetric s.windKt "kt"
      let ioi :=
        match s.ioi with
        | some v => formatFixed0 v
        | none => "n/a"
      "[Marine Snapshot] Hs " ++ hs ++ " · Wind " ++ wind ++ " · IOI " ++ ioi

def slackMessage (sample : String) (slot : Slot) (timezone : String) : String :=
  let label := match slot with | .am => "Morning" | .pm => "Evening"
  String.intercalate "\n\n" ["*Daily Report – " ++ label ++ " (" ++ timezone ++ ")*", sample]

def slotUpper (slot : Slot) : String :=
  match slot with | .am => "AM" | .pm => "PM"

def emailSubject (vesselName : String) (slot : Slot) (timezone : String) : String :=
  let slotLabel := if slot = Slot.am then "06:00" else "17:00"
  vesselName ++ " 자동 브리핑 · " ++ slotUpper slot ++ " (" ++ slotLabel ++ " " ++ timezone ++ ")"

def reportSlotTime (slot : Slot) : String :=
  match slot with | .am => "06:00" | .pm => "17:00"

def inferSlot (hour : ℕ) : Slot :=
  if hour < 12 then .am else .pm

def normaliseSlot (slotParam : Option String) (hour : ℕ) : Slot :=
  match slotParam with
  | some "am" => .am
  | some "pm" => .pm
  | _ => inferSlot hour

/-- The fields of the vessel JSON the route actually uses. -/
structure VesselData where
  name : Option String
  status : Option String
  port : Option String
  scheduleLen : ℕ

/-- The module-level `lastReport` record the route persists. -/
structure LastReportMeta where
  slot : Slot
  generatedAt : String
  timezone : String
  sample : String
  sent : List NotifyResult

/-- The `ok` flag the preview branch derives from the stored record:
`lastReport?.sent.some((entry) => entry.ok) ?? false`. -/
def previewOk (lastReport : Option LastReportMeta) : Bool :=
  match lastReport with
  | none => false
  | some meta => meta.sent.any (fun entry => entry.ok)

inductive MarineSummary
  | withPort (port : Option String)
  | unavailable
  deriving DecidableEq, Repr

/-- The JSON payload of a completed (non-aborted) pass. -/
structure SuccessPayload where
  ok : Bool
  slot : Slot
  generatedAt : String
  timezone : String
  sample : String
  sent : List NotifyResult
  scheduleSize : ℕ
  marine : MarineSummary
  slotTime : String

/-- Either the 502 failure JSON `{ok:false, error}` or the normal payload. -/
inductive GetResult
  | failure (error : String)
  | success (payload : SuccessPayload)

/-- One non-preview pass of the GET handler. Upstream fetch results are
explicit arguments: `Except.error` models a thrown/`!ok` mandatory fetch,
`none` models the swallowed marine failure, and the two `FetchOutcome`
arguments feed the channel sends. Returns the response together with the
new `lastReport` state. -/
def reportPass (env : Env) (timezone : String) (nowIso : String) (hour : ℕ)
    (slotParam : Option String)
    (vesselResult : Except String VesselData)
    (marineResult : Option MarineJson)
    (briefingResult : Except String (Option String))
    (slackOutcome : FetchOutcome) (emailOutcome : FetchOutcome)
    (lastReport : Option LastReportMeta) : GetResult × Option LastReportMeta :=
  match vesselResult with
  | .error message => (.failure message, lastReport)
  | .ok vesselData =>
      let slot := normaliseSlot slotParam hour
      match briefingResult with
      | .error message => (.failure message, lastReport)
      | .ok briefingField =>
          let briefing := briefingField.getD ""
          let marineLine := buildMarineLine marineResult
          let sample := String.intercalate "\n" [jsTrim briefing, "", marineLine]
          let slackResult := (sendSlack ⟨slackMessage sample slot timezone, none⟩ env slackOutcome).1
          let emailResult :=
            (sendEmail ⟨emailSubject (vesselData.name.getD "Vessel") slot timezone,
                sample, none, none, none⟩ env emailOutcome).1
          let sent := [slackResult, emailResult]
          let ok := sent.any (fun entry => entry.ok)
          let newReport : LastReportMeta := ⟨slot, nowIso, timezone, sample, sent⟩
          let marine :=
            match marineResult with
            | some s => MarineSummary.withPort s.port
            | none => MarineSummary.unavailable
          (.success ⟨ok, slot, nowIso, timezone, sample, sent,
              vesselData.scheduleLen, marine, reportSlotTime slot⟩,
            some newReport)

/-! ## Scheduler (scripts/scheduler.ts) -/

structure LockFile where
  slot : Slot
  timestamp : ℤ
  deriving DecidableEq, Repr

/-- What one dispatch attempt observed: the HTTP response flag and the
`ok` field of the parsed JSON body, or a thrown exception. -/
inductive DispatchOutcome
  | responded (httpOk : Bool) (jsonOk : Bool)
  | threw
  deriving DecidableEq, Repr

/-- Everything observable about one scheduler tick. -/
structure TickResult where
  networkCalls : ℕ
  skipped : Bool
  wrote : Bool
  newLock : Option LockFile
  deriving DecidableEq, Repr

def lockWindowMs : ℤ := 5 * 60 * 1000

def shouldSkip (lock : Option LockFile) (slot : Slot) (now : ℤ) : Bool :=
  match lock with
  | some last => decide (last.slot = slot) && decide (now - last.timestamp < lockWindowMs)
  | none => false

def triggerReport (lock : Option LockFile) (slot : Slot) (now : ℤ)
    (outcome : DispatchOutcome) : TickResult :=
  if shouldSkip lock slot now then
    ⟨0, true, false, lock⟩
  else
    match outcome with
    | .responded httpOk jsonOk =>
        if !httpOk || !jsonOk then ⟨1, false, false, lock⟩
        else ⟨1, false, true, some ⟨slot, now⟩⟩
    | .threw => ⟨1, false, false, lock⟩

/-! ## Spec-side restatements

These definitions transcribe the wording of the specification, to be
compared against the functions translated from the source. -/

/-- Spec wording: 1 at or below the caution threshold 1.5 m, 0 at or
above the no-go threshold 2.5 m, linearly interpolated between, 0.5 when
unknown. -/
def specHsSubScore (hs : Option ℚ) : ℚ :=
  match hs with
  | none => 0.5
  | some h =>
      if h ≤ 1.5 then 1
      else if 2.5 ≤ h then 0
      else (2.5 - h) / (2.5 - 1.5)

/-- Spec wording: same shape with caution/no-go thresholds 18 kt / 28 kt. -/
def specWindSubScore (wind : Option ℚ) : ℚ :=
  match wind with
  | none => 0.5
  | some w =>
      if w ≤ 18 then 1
      else if 28 ≤ w then 0
      else (28 - w) / (28 - 18)

/-- Spec wording: the period, defaulting to 8 s when missing, clamped to
[6 s, 12 s], mapped linearly onto [0,1]. -/
def specSwellSubScore (period : Option ℚ) : ℚ :=
  (min 12 (max 6 (period.getD 8)) - 6) / (12 - 6)

/-! ## Risk scorer lemmas -/

theorem hsSubScore_eq_spec (hs : Option ℚ) : hsSubScore hs = specHsSubScore hs := by
  cases hs with
  | none => rfl
  | some h =>
      simp only [hsSubScore, specHsSubScore, HS_CAUTION, HS_NOGO]
      split_ifs <;> ring_nf

theorem windSubScore_eq_spec (wind : Option ℚ) : windSubScore wind = specWindSubScore wind := by
  cases wind with
  | none => rfl
  | some w =>
      simp only [windSubScore, specWindSubScore, WIND_CAUTION, WIND_NOGO]
      split_ifs <;> ring_nf

theorem swellSubScore_eq_spec (period : Option ℚ) :
    swellSubScore period = specSwellSubScore period := by
  simp only [swellSubScore, specSwellSubScore, SWELL_MIN, SWELL_MAX]

theorem hsSubScore_bounds (hs : Option ℚ) : 0 ≤ hsSubScore hs ∧ hsSubScore hs ≤ 1 := by
  cases hs with
  | none => norm_num [hsSubScore]
  | some h =>
      simp only [hsSubScore, HS_CAUTION, HS_NOGO]
      split_ifs with h1 h2 <;> constructor <;> norm_num <;> nlinarith

theorem windSubScore_bounds (wind : Option ℚ) :
    0 ≤ windSubScore wind ∧ windSubScore wind ≤ 1 := by
  cases wind with
  | none => norm_num [windSubScore]
  | some w =>
      simp only [windSubScore, WIND_CAUTION, WIND_NOGO]
      split_ifs with h1 h2 <;> constructor <;> norm_num <;> nlinarith

theorem swellSubScore_bounds (period : Option ℚ) :
    0 ≤ swellSubScore period ∧ swellSubScore period ≤ 1 := by
  simp only [swellSubScore, SWELL_MIN, SWELL_MAX]
  have hlow : (6 : ℚ) ≤ min 12 (max 6 (period.getD 8)) := by
    rcases le_total (12 : ℚ) (max 6 (period.getD 8)) with h | h
    · rw [min_eq_left h]
      norm_num
    · rw [min_eq_right h]
      exact le_max_left _ _
  have hhigh : min 12 (max 6 (period.getD 8)) ≤ 12 := min_le_left _ _
  constructor
  · apply div_nonneg (by linarith) (by norm_num)
  · rw [div_le_one (by norm_num)]
    linarith

theorem computeIoi_getD_eq (s : MarineSnapshot) :
    (computeIoiFromMarine s).getD 0 =
      max 0 (min 100 (round ((0.5 * hsSubScore s.hs + 0.35 * windSubScore s.windKt
        + 0.15 * swellSubScore s.swellPeriod) * 100))) := rfl

theorem round_mono_q {x y : ℚ} (h : x ≤ y) : round x ≤ round y := by
  rw [round_eq, round_eq]
  exact Int.floor_le_floor (by linarith)

theorem hsSubScore_antitone {h1 h2 : ℚ} (hh : h1 ≤ h2) :
    hsSubScore (some h2) ≤ hsSubScore (some h1) := by
  simp only [hsSubScore, HS_CAUTION, HS_NOGO]
  split_ifs with a b c d e <;> norm_num <;> nlinarith

theorem windSubScore_antitone {w1 w2 : ℚ} (hw : w1 ≤ w2) :
    windSubScore (some w2) ≤ windSubScore (some w1) := by
  simp only [windSubScore, WIND_CAUTION, WIND_NOGO]
  split_ifs with a b c d e <;> norm_num <;> nlinarith

theorem computeIoi_le_of_combined_le {s1 s2 : MarineSnapshot}
    (h : 0.5 * hsSubScore s2.hs + 0.35 * windSubScore s2.windKt
          + 0.15 * swellSubScore s2.swellPeriod
        ≤ 0.5 * hsSubScore s1.hs + 0.35 * windSubScore s1.windKt
          + 0.15 * swellSubScore s1.swellPeriod) :
    (computeIoiFromMarine s2).getD 0 ≤ (computeIoiFromMarine s1).getD 0 := by
  rw [computeIoi_getD_eq, computeIoi_getD_eq]
  have hr : round ((0.5 * hsSubScore s2.hs + 0.35 * windSubScore s2.windKt
      + 0.15 * swellSubScore s2.swellPeriod) * 100)
      ≤ round ((0.5 * hsSubScore s1.hs + 0.35 * windSubScore s1.windKt
      + 0.15 * swellSubScore s1.swellPeriod) * 100) :=
    round_mono_q (by nlinarith)
  exact max_le_max (le_refl 0) (min_le_min (le_refl 100) hr)

/-- Modelled from the spec wording for the secondary derivation path:
feet are converted to meters by multiplying with the factor 0.3048. -/
def specDeriveVoyageIoi (voyage : VoyageRecord) : ℤ :=
  let hs := voyage.swellFt * 0.3048
  (computeIoiFromMarine ⟨some hs, some voyage.windKt, some 8, none⟩).getD 50

/-- A scheduled-voyage record at which the two conversion factors give
different scores. -/
def c9Voyage : VoyageRecord :=
  ⟨"69th", "Dune Sand", "2025-09-28T16:00:00Z", "2025-09-29T04:00:00Z",
    "Scheduled", "MW4", "AGI", 6.8569556, 15⟩

/-- C2: the risk scorer never fails and returns an integer in [0,100]
equal to rounding-to-nearest of 100 times the weighted sum of the three
sub-scores (weights 0.50 / 0.35 / 0.15), clamped to [0,100], where each
sub-score is the piecewise-linear map described by the spec and lies in
[0,1]. -/
theorem riskScorer_total_bounded_formula (snapshot : MarineSnapshot) :
    ∃ n : ℤ,
      computeIoiFromMarine snapshot = some n ∧
      0 ≤ n ∧ n ≤ 100 ∧
      0 ≤ specHsSubScore snapshot.hs ∧ specHsSubScore snapshot.hs ≤ 1 ∧
      0 ≤ specWindSubScore snapshot.windKt ∧ specWindSubScore snapshot.windKt ≤ 1 ∧
      0 ≤ specSwellSubScore snapshot.swellPeriod ∧
      specSwellSubScore snapshot.swellPeriod ≤ 1 ∧
      n = max 0 (min 100 (round ((0.5 * specHsSubScore snapshot.hs
            + 0.35 * specWindSubScore snapshot.windKt
            + 0.15 * specSwellSubScore snapshot.swellPeriod) * 100))) := by
  refine ⟨_, rfl, le_max_left _ _, max_le (by norm_num) (min_le_left _ _),
    (hsSubScore_eq_spec snapshot.hs ▸ (hsSubScore_bounds snapshot.hs).1),
    (hsSubScore_eq_spec snapshot.hs ▸ (hsSubScore_bounds snapshot.hs).2),
    (windSubScore_eq_spec snapshot.windKt ▸ (windSubScore_bounds snapshot.windKt).1),
    (windSubScore_eq_spec snapshot.windKt ▸ (windSubScore_bounds snapshot.windKt).2),
    (swellSubScore_eq_spec snapshot.swellPeriod ▸ (swellSubScore_bounds snapshot.swellPeriod).1),
    (swellSubScore_eq_spec snapshot.swellPeriod ▸ (swellSubScore_bounds snapshot.swellPeriod).2),
    ?_⟩
  rw [← hsSubScore_eq_spec, ← windSubScore_eq_spec, ← swellSubScore_eq_spec]

/-- C7: with wind and swell period held fixed, a larger wave height never
yields a larger score; with wave height and swell period held fixed, a
larger wind speed never yields a larger score. -/
theorem riskScorer_monotone (h1 h2 w1 w2 : ℚ)
    (windFix periodFix ioiFix hsFix periodFix2 ioiFix2 : Option ℚ)
    (hh : h1 ≤ h2) (hw : w1 ≤ w2) :
    (computeIoiFromMarine ⟨some h2, windFix, periodFix, ioiFix⟩).getD 0
      ≤ (computeIoiFromMarine ⟨some h1, windFix, periodFix, ioiFix⟩).getD 0 ∧
    (computeIoiFromMarine ⟨hsFix, some w2, periodFix2, ioiFix2⟩).getD 0
      ≤ (computeIoiFromMarine ⟨hsFix, some w1, periodFix2, ioiFix2⟩).getD 0 := by
  constructor
  · exact computeIoi_le_of_combined_le (by
      have hmono := hsSubScore_antitone hh
      dsimp only
      linarith)
  · exact computeIoi_le_of_combined_le (by
      have hmono := windSubScore_antitone hw
      dsimp only
      linarith)

/-- Witness for C7 at the concrete heights 1 ≤ 2 and winds 1 ≤ 2. -/
theorem riskScorer_monotone_witness :
    ((1 : ℚ) ≤ 2) ∧
    ((computeIoiFromMarine ⟨some 2, none, none, none⟩).getD 0
        ≤ (computeIoiFromMarine ⟨some 1, none, none, none⟩).getD 0 ∧
      (computeIoiFromMarine ⟨none, some 2, none, none⟩).getD 0
        ≤ (computeIoiFromMarine ⟨none, some 1, none, none⟩).getD 0) :=
  ⟨one_le_two,
    riskScorer_monotone 1 2 1 2 none none none none none none one_le_two one_le_two⟩

/-- C9 counterexample: at swell 6.8569556 ft and wind 15 kt the source
conversion (division by 3.28084, giving exactly 2.09 m) scores 61, while
the conversion the claim words (multiplication by 0.3048) scores 60. -/
theorem deriveVoyageIoi_factor_counterexample :
    deriveVoyageIoi c9Voyage = 61 ∧ specDeriveVoyageIoi c9Voyage = 60 := by
  constructor <;>
    norm_num [deriveVoyageIoi, specDeriveVoyageIoi, c9Voyage, computeIoiFromMarine,
      hsSubScore, windSubScore, swellSubScore, HS_CAUTION, HS_NOGO, WIND_CAUTION,
      WIND_NOGO, SWELL_MIN, SWELL_MAX, min_def, max_def, round_eq, Int.floor_eq_iff]

/-- C9 (amended): the secondary derivation path converts feet to meters
by dividing by 3.28084 (the factor 1/3.28084, not exactly 0.3048),
assumes an 8-second swell period, passes the wind in knots unchanged, and
delegates to the same scoring function; the 50 fallback applies only if
scoring yields no value, which it never does. -/
theorem deriveVoyageIoi_delegates (voyage : VoyageRecord) :
    ∃ n : ℤ,
      computeIoiFromMarine
          ⟨some (voyage.swellFt / 3.28084), some voyage.windKt, some 8, none⟩ = some n ∧
      deriveVoyageIoi voyage = n :=
  ⟨_, rfl, rfl⟩

/-! ## Notifier lemmas and claims -/

theorem sendSlack_channel_eq (options : SlackOptions) (env : Env) (outcome : FetchOutcome) :
    ((sendSlack options env outcome).1).channel = NotifyChannel.slack := by
  cases outcome with
  | success status =>
      unfold sendSlack
      dsimp only
      split
      · rfl
      · split <;> rfl
  | throwErr msg =>
      unfold sendSlack
      dsimp only
      split <;> rfl

theorem sendEmail_channel_eq (options : EmailOptions) (env : Env) (outcome : FetchOutcome) :
    ((sendEmail options env outcome).1).channel = NotifyChannel.email := by
  cases outcome with
  | success status =>
      unfold sendEmail
      dsimp only
      split
      · rfl
      · split
        · rfl
        · split
          · rfl
          · split <;> rfl
  | throwErr msg =>
      unfold sendEmail
      dsimp only
      split
      · rfl
      · split
        · rfl
        · split <;> rfl

/-- C6: `sendSlack` always returns a slack-channel NotifyResult; with no
resolvable webhook URL it fails immediately with the missing-webhook
error and makes no network call; otherwise it makes exactly one call and
maps a 2xx status to success, any other status to a failure embedding the
status code, and a thrown exception to a failure carrying its message or
the generic fallback. -/
theorem sendSlack_error_policy (options : SlackOptions) (env : Env) (outcome : FetchOutcome) :
    ((sendSlack options env outcome).1).channel = NotifyChannel.slack ∧
    (isFalsyStr (resolveWebhook options env) = true →
      sendSlack options env outcome
        = (⟨.slack, false, some "Missing Slack webhook URL"⟩, 0)) ∧
    (isFalsyStr (resolveWebhook options env) = false →
      (sendSlack options env outcome).2 = 1 ∧
      (∀ status, outcome = .success status →
        (((sendSlack options env outcome).1).ok = true ↔ (200 ≤ status ∧ status ≤ 299)) ∧
        (¬(200 ≤ status ∧ status ≤ 299) →
          (sendSlack options env outcome).1
            = ⟨.slack, false, some ("Slack webhook responded " ++ toString status)⟩)) ∧
      (∀ msg, outcome = .throwErr msg →
        (sendSlack options env outcome).1
          = ⟨.slack, false, some (msg.getD "Slack webhook error")⟩)) := by
  refine ⟨sendSlack_channel_eq options env outcome, ?_, ?_⟩
  · intro hmiss
    simp [sendSlack, hmiss]
  · intro hres
    refine ⟨?_, ?_, ?_⟩
    · simp only [sendSlack, hres, Bool.false_eq_true, if_false]
      cases outcome with
      | success status =>
          dsimp only
          split <;> rfl
      | throwErr msg => rfl
    · rintro status rfl
      constructor
      · simp only [sendSlack, hres, Bool.false_eq_true, if_false]
        split <;> rename_i h2xx
        · simpa using h2xx
        · simpa using h2xx
      · intro hbad
        simp [sendSlack, hres, hbad]
    · rintro msg rfl
      simp [sendSlack, hres]

/-- C5: `sendEmail` validates in the order recipients, API key, sender
address, each failing with its own error before any network call, and
resolves each from the explicit option with fallback to the environment;
only when all three resolve is the single POST issued. -/
theorem sendEmail_validation_order (options : EmailOptions) (env : Env) (outcome : FetchOutcome) :
    (normaliseRecipients (resolveRecipientsArg options env) = [] →
      sendEmail options env outcome
        = (⟨.email, false, some "Missing email recipients"⟩, 0)) ∧
    (normaliseRecipients (resolveRecipientsArg options env) ≠ [] →
      isFalsyStr (options.apiKey.orElse (fun _ => env.resendApiKey)) = true →
      sendEmail options env outcome
        = (⟨.email, false, some "Missing Resend API key"⟩, 0)) ∧
    (normaliseRecipients (resolveRecipientsArg options env) ≠ [] →
      isFalsyStr (options.apiKey.orElse (fun _ => env.resendApiKey)) = false →
      isFalsyStr (options.fromAddr.orElse (fun _ => env.reportSender)) = true →
      sendEmail options env outcome
        = (⟨.email, false, some "Missing report sender address"⟩, 0)) ∧
    (normaliseRecipients (resolveRecipientsArg options env) ≠ [] →
      isFalsyStr (options.apiKey.orElse (fun _ => env.resendApiKey)) = false →
      isFalsyStr (options.fromAddr.orElse (fun _ => env.reportSender)) = false →
      (sendEmail options env outcome).2 = 1) := by
  refine ⟨?_, ?_, ?_, ?_⟩
  · intro hempty
    have hlen : (normaliseRecipients (resolveRecipientsArg options env)).length = 0 := by
      rw [hempty]
      rfl
    simp [sendEmail, hlen]
  · intro hne hkey
    have hlen : ¬ (normaliseRecipients (resolveRecipientsArg options env)).length = 0 := by
      simpa [List.length_eq_zero] using hne
    simp [sendEmail, hlen, hkey]
  · intro hne hkey hsender
    have hlen : ¬ (normaliseRecipients (resolveRecipientsArg options env)).length = 0 := by
      simpa [List.length_eq_zero] using hne
    simp [sendEmail, hlen, hkey, hsender]
  · intro hne hkey hsender
    have hlen : ¬ (normaliseRecipients (resolveRecipientsArg options env)).length = 0 := by
      simpa [List.length_eq_zero] using hne
    simp only [sendEmail, hlen, hkey, hsender, Bool.false_eq_true, if_false]
    cases outcome with
    | success status =>
        dsimp only
        split <;> rfl
    | throwErr msg => rfl

/-- C10: an explicitly supplied recipients list that normalizes to empty
fails with the missing-recipients error without consulting the configured
fallback; the configured comma-separated recipients are consulted only
when the argument is entirely absent. -/
theorem sendEmail_explicit_recipients_no_fallback
    (options : EmailOptions) (env : Env) (outcome : FetchOutcome) :
    (∀ l, options.toAddrs = some l → normaliseRecipients (RecipientsArg.list l) = [] →
      sendEmail options env outcome
        = (⟨.email, false, some "Missing email recipients"⟩, 0)) ∧
    (∀ l r1 r2, options.toAddrs = some l →
      sendEmail options { env with reportRecipients := r1 } outcome
        = sendEmail options { env with reportRecipients := r2 } outcome) ∧
    (options.toAddrs = none → ∀ s, env.reportRecipients = some s →
      resolveRecipientsArg options env = RecipientsArg.list (jsSplitComma s)) := by
  refine ⟨?_, ?_, ?_⟩
  · intro l hto hempty
    have harg : resolveRecipientsArg options env = RecipientsArg.list l := by
      simp [resolveRecipientsArg, hto]
    have hlen : (normaliseRecipients (resolveRecipientsArg options env)).length = 0 := by
      rw [harg, hempty]
      rfl
    simp [sendEmail, hlen, harg, hempty]
  · intro l r1 r2 hto
    have h1 : resolveRecipientsArg options { env with reportRecipients := r1 }
        = RecipientsArg.list l := by
      simp [resolveRecipientsArg, hto]
    have h2 : resolveRecipientsArg options { env with reportRecipients := r2 }
        = RecipientsArg.list l := by
      simp [resolveRecipientsArg, hto]
    simp only [sendEmail, h1, h2]
  · intro hto s hcfg
    simp [resolveRecipientsArg, hto, hcfg]

/-! ## Route claims -/

/-- C1: when both mandatory fetches succeed, the pass always completes
with exactly one NotifyResult per configured channel, in the order chat
then email, persists a record carrying that same `sent` sequence, and the
`ok` of the response and of the stored record (as the preview derives it)
is true exactly when at least one channel succeeded. -/
theorem reportRecord_sent_per_channel_and_ok
    (env : Env) (timezone nowIso : String) (hour : ℕ) (slotParam : Option String)
    (vesselData : VesselData) (marineResult : Option MarineJson)
    (briefingField : Option String) (slackOutcome emailOutcome : FetchOutcome)
    (lastReport : Option LastReportMeta) :
    ∃ payload newReport,
      reportPass env timezone nowIso hour slotParam (.ok vesselData) marineResult
          (.ok briefingField) slackOutcome emailOutcome lastReport
        = (.success payload, some newReport) ∧
      payload.sent.length = 2 ∧
      payload.sent.map NotifyResult.channel = [NotifyChannel.slack, NotifyChannel.email] ∧
      newReport.sent = payload.sent ∧
      (payload.ok = true ↔ ∃ r ∈ payload.sent, r.ok = true) ∧
      previewOk (some newReport) = payload.ok := by
  refine ⟨_, _, rfl, rfl, ?_, rfl, ?_, rfl⟩
  · simp [sendSlack_channel_eq, sendEmail_channel_eq]
  · simp [List.any_eq_true]

/-- C4: a failed vessel fetch or a failed briefing fetch each abort the
pass with that single failure message and leave the stored record
untouched; a failed marine fetch alone still completes the pass, with the
placeholder marine line composed into the sample. -/
theorem reportPass_error_policy
    (env : Env) (timezone nowIso : String) (hour : ℕ) (slotParam : Option String)
    (message briefingMsg : String) (vesselData : VesselData)
    (marineResult : Option MarineJson) (briefingField : Option String)
    (slackOutcome emailOutcome : FetchOutcome) (lastReport : Option LastReportMeta) :
    (∀ briefingResult, reportPass env timezone nowIso hour slotParam (.error message)
        marineResult briefingResult slackOutcome emailOutcome lastReport
      = (.failure message, lastReport)) ∧
    (reportPass env timezone nowIso hour slotParam (.ok vesselData) marineResult
        (.error briefingMsg) slackOutcome emailOutcome lastReport
      = (.failure briefingMsg, lastReport)) ∧
    (∃ payload newReport,
      reportPass env timezone nowIso hour slotParam (.ok vesselData) none
          (.ok briefingField) slackOutcome emailOutcome lastReport
        = (.success payload, some newReport) ∧
      payload.sample = String.intercalate "\n"
          [jsTrim (briefingField.getD ""), "", "[Marine Snapshot] 데이터 없음"]) := by
  exact ⟨fun _ => rfl, rfl, ⟨_, _, rfl, rfl⟩⟩

/-! ## Scheduler lemmas and claim -/

theorem shouldSkip_false_mono (lock : Option LockFile) (slot : Slot) (now : ℤ) (d : ℕ)
    (h : shouldSkip lock slot now = false) : shouldSkip lock slot (now + d) = false := by
  cases lock with
  | none => rfl
  | some l =>
      by_cases hs : l.slot = slot
      · simp [shouldSkip, hs, lockWindowMs] at h ⊢
        omega
      · simp [shouldSkip, hs]

theorem triggerReport_calls_of_not_skip {lock : Option LockFile} {slot : Slot} {now : ℤ}
    (outcome : DispatchOutcome) (h : shouldSkip lock slot now = false) :
    (triggerReport lock slot now outcome).networkCalls = 1 := by
  simp only [triggerReport, h, Bool.false_eq_true, if_false]
  cases outcome with
  | responded httpOk jsonOk =>
      dsimp only
      split <;> rfl
  | threw => rfl

/-- C3: a tick skips (zero network calls, lock untouched) exactly when a
lock exists for the same slot with a timestamp less than 5 minutes before
now; otherwise it dispatches once, writes the lock {slot, now} exactly
when the dispatch reported overall success, and after a failed dispatch
the lock is unchanged so any later tick dispatches again. -/
theorem scheduler_tick_policy (lock : Option LockFile) (slot : Slot) (now : ℤ) (d : ℕ)
    (outcome outcome2 : DispatchOutcome) :
    (shouldSkip lock slot now = true →
      triggerReport lock slot now outcome = ⟨0, true, false, lock⟩) ∧
    (shouldSkip lock slot now = true ↔
      ∃ l, lock = some l ∧ l.slot = slot ∧ now - l.timestamp < 5 * 60 * 1000) ∧
    (shouldSkip lock slot now = false →
      (triggerReport lock slot now outcome).networkCalls = 1 ∧
      ((triggerReport lock slot now outcome).wrote = true ↔
        outcome = .responded true true) ∧
      ((triggerReport lock slot now outcome).newLock =
        if outcome = .responded true true then some ⟨slot, now⟩ else lock) ∧
      (outcome ≠ .responded true true →
        (triggerReport ((triggerReport lock slot now outcome).newLock) slot (now + d)
            outcome2).networkCalls = 1)) := by
  refine ⟨?_, ?_, ?_⟩
  · intro h
    simp [triggerReport, h]
  · cases lock with
    | none => simp [shouldSkip]
    | some l => simp [shouldSkip, lockWindowMs]
  · intro h
    have hcalls : (triggerReport lock slot now outcome).networkCalls = 1 :=
      triggerReport_calls_of_not_skip outcome h
    refine ⟨hcalls, ?_, ?_, ?_⟩
    · simp only [triggerReport, h, Bool.false_eq_true, if_false]
      cases outcome with
      | responded httpOk jsonOk =>
          cases httpOk <;> cases jsonOk <;> simp
      | threw => simp
    · simp only [triggerReport, h, Bool.false_eq_true, if_false]
      cases outcome with
      | responded httpOk jsonOk =>
          cases httpOk <;> cases jsonOk <;> simp
      | threw => simp
    · intro hfail
      have hlock : (triggerReport lock slot now outcome).newLock = lock := by
        simp only [triggerReport, h, Bool.false_eq_true, if_false]
        cases outcome with
        | responded httpOk jsonOk =>
            cases httpOk <;> cases jsonOk <;> simp_all
        | threw => simp
      rw [hlock]
      exact triggerReport_calls_of_not_skip outcome2 (shouldSkip_false_mono lock slot now d h)

/-! ## The concrete composed-sample scenario -/

/-- The marine snapshot of the scenario: hs and windKt only. -/
def c8Marine : MarineJson := ⟨none, some 1.2, some 15.4, none, none⟩

/-- The same snapshot additionally carrying the precomputed index 82. -/
def c8MarineIoi : MarineJson := ⟨none, some 1.2, some 15.4, none, some 82⟩

def c8Env : Env :=
  ⟨some "https://hooks.example/test", some "ops@example.com", some "key",
    some "no-reply@example.com"⟩

def c8Vessel : VesselData := ⟨some "X", some "Ready", some "Jebel Ali", 1⟩

def c8Pass : GetResult × Option LastReportMeta :=
  reportPass c8Env "Asia/Dubai" "2025-09-28T02:00:00.000Z" 6 none (.ok c8Vessel)
    (some c8Marine) (.ok (some "Headline\nBody")) (.success 200) (.success 200) none

def c8PassIoi : GetResult × Option LastReportMeta :=
  reportPass c8Env "Asia/Dubai" "2025-09-28T02:00:00.000Z" 6 none (.ok c8Vessel)
    (some c8MarineIoi) (.ok (some "Headline\nBody")) (.success 200) (.success 200) none

/-- The line shape the claim asserts: the marine line ending in an
integer composite index. -/
def specIoiLine (n : ℤ) : String :=
  "[Marine Snapshot] Hs 1.20 m · Wind 15.40 kt · IOI " ++ toString n

theorem formatFixed2_at_12 : formatFixed2 (1.2 : ℚ) = "1.20" := by
  have h2 : round (|(1.2 : ℚ)| * 100) = 120 := by
    rw [abs_of_nonneg (by norm_num), round_eq]
    norm_num [Int.floor_eq_iff]
  simp only [formatFixed2, h2]
  norm_num
  decide

theorem formatFixed2_at_154 : formatFixed2 (15.4 : ℚ) = "15.40" := by
  have h2 : round (|(15.4 : ℚ)| * 100) = 1540 := by
    rw [abs_of_nonneg (by norm_num), round_eq]
    norm_num [Int.floor_eq_iff]
  simp only [formatFixed2, h2]
  norm_num
  decide

theorem formatFixed0_at_82 : formatFixed0 (82 : ℚ) = "82" := by
  have h2 : round (|(82 : ℚ)|) = 82 := by
    rw [abs_of_nonneg (by norm_num), round_eq]
    norm_num [Int.floor_eq_iff]
  simp only [formatFixed0, h2]
  norm_num
  decide

theorem c8_marineLine :
    buildMarineLine (some c8Marine)
      = "[Marine Snapshot] Hs 1.20 m · Wind 15.40 kt · IOI n/a" := by
  simp only [buildMarineLine, c8Marine, formatMetric, formatFixed2_at_12, formatFixed2_at_154]
  decide

theorem c8_marineLine_ioi :
    buildMarineLine (some c8MarineIoi)
      = "[Marine Snapshot] Hs 1.20 m · Wind 15.40 kt · IOI 82" := by
  simp only [buildMarineLine, c8MarineIoi, formatMetric, formatFixed2_at_12,
    formatFixed2_at_154, formatFixed0_at_82]
  decide

set_option maxRecDepth 8192 in
/-- C8 counterexample: with only hs and windKt present in the snapshot,
the composed sample ends in `IOI n/a`, which matches no line of the form
`IOI <integer 0..100>`. -/
theorem composedSample_ioi_counterexample :
    (∃ payload newReport, c8Pass = (GetResult.success payload, some newReport) ∧
      payload.sample
        = "Headline\nBody\n\n[Marine Snapshot] Hs 1.20 m · Wind 15.40 kt · IOI n/a") ∧
    ¬ ∃ n : Fin 101,
      ("Headline\nBody\n\n[Marine Snapshot] Hs 1.20 m · Wind 15.40 kt · IOI n/a" : String)
        = "Headline\nBody" ++ "\n\n" ++ specIoiLine (n : ℕ) := by
  constructor
  · refine ⟨_, _, rfl, ?_⟩
    show String.intercalate "\n" [jsTrim "Headline\nBody", "", buildMarineLine (some c8Marine)]
        = "Headline\nBody\n\n[Marine Snapshot] Hs 1.20 m · Wind 15.40 kt · IOI n/a"
    rw [c8_marineLine]
    decide
  · decide

set_option maxRecDepth 8192 in
/-- C8 (amended): for the scenario input the composed sample is the
trimmed narrative, a blank line, and the final line
`[Marine Snapshot] Hs 1.20 m · Wind 15.40 kt · IOI n/a`; the composite
index is rendered as an integer in 0..100 only when the snapshot itself
carries a numeric `ioi` field (82 here), because the composer reads the
precomputed index rather than recomputing it. -/
theorem composedSample_structure :
    (∃ payload newReport, c8Pass = (GetResult.success payload, some newReport) ∧
      payload.sample = "Headline\nBody" ++ "\n\n"
          ++ "[Marine Snapshot] Hs 1.20 m · Wind 15.40 kt · IOI n/a") ∧
    (∃ payload newReport, c8PassIoi = (GetResult.success payload, some newReport) ∧
      payload.sample = "Headline\nBody" ++ "\n\n" ++ specIoiLine 82 ∧
      (0 : ℤ) ≤ 82 ∧ (82 : ℤ) ≤ 100) := by
  constructor
  · refine ⟨_, _, rfl, ?_⟩
    show String.intercalate "\n" [jsTrim "Headline\nBody", "", buildMarineLine (some c8Marine)]
        = "Headline\nBody" ++ "\n\n"
          ++ "[Marine Snapshot] Hs 1.20 m · Wind 15.40 kt · IOI n/a"
    rw [c8_marineLine]
    decide
  · refine ⟨_, _, rfl, ?_, by norm_num, by norm_num⟩
    show String.intercalate "\n" [jsTrim "Headline\nBody", "", buildMarineLine (some c8MarineIoi)]
        = "Headline\nBody" ++ "\n\n" ++ specIoiLine 82
    rw [c8_marineLine_ioi]
    decide

end WV

example : WV.computeIoiFromMarine ⟨none, none, none, none⟩ = some 48 := by
  norm_num [WV.computeIoiFromMarine, WV.hsSubScore, WV.windSubScore, WV.swellSubScore,
    WV.SWELL_MIN, WV.SWELL_MAX, round_eq, Int.floor_eq_iff]
example : WV.jsSplitComma "a, b ,c" = ["a", " b ", "c"] := by decide
example : WV.jsTrim "  x " = "x" := by decide
